import Mathlib

/-!
Verification development for the nordpool2influxdb pipeline
(src/nordpool2influxdb/nordpool2influxdb.py).

The Python program fetches day-ahead electricity prices, validates the
provider response with pydantic models (`HourlyPrice`, `AreaValues`,
`AreaPrices`), converts every hourly price with
`_convert_price_to_cents_with_vat24`, flattens the result into a list of
InfluxDB write records (`json_body`), and either logs the records
(dry-run) or writes them with `influx.write_points`.

The embedding below models:
  * parsed YAML / provider JSON values as a `Json` tree (Python dicts
    become ordered association lists, mirroring Python's insertion-order
    dict semantics; numeric values become exact rationals);
  * `datetime` parsing/rendering for the ISO-8601 subset
    `YYYY-MM-DDTHH:MM:SS` with an optional `Z` or `±HH:MM` suffix, the
    shapes exercised by this program (pydantic v1 accepts this subset
    via `datetime` validation, and `datetime.isoformat` renders a
    UTC-aware instant with a `+00:00` suffix);
  * the pydantic models as record types with explicit `parse_obj`
    validators (pydantic v1 ignores unknown extra fields by default,
    which the validators mirror);
  * `collect_data` as a function from an environment of external
    outcomes (fetch result, write outcome) to a trace recording the
    network-session state, the batches passed to `write_points`, and the
    batches logged on the dry-run path, together with the
    normal/exceptional result.
-/

namespace Nordpool2Influxdb

/-- A parsed JSON / YAML value. Objects are ordered association lists,
mirroring Python's insertion-ordered dicts; numbers are exact rationals. -/
inductive Json where
  | str : String → Json
  | num : ℚ → Json
  | bool : Bool → Json
  | null : Json
  | arr : List Json → Json
  | obj : List (String × Json) → Json

/-- Key lookup in an object's field list (dict access). -/
def Json.lookup : List (String × Json) → String → Option Json
  | [], _ => none
  | (k, v) :: rest, key => if k = key then some v else Json.lookup rest key

/-- A timezone-aware or naive instant; `tzOffsetMinutes = none` means naive,
`some off` means a fixed UTC offset of `off` minutes (Python `datetime`). -/
structure Datetime where
  year : Nat
  month : Nat
  day : Nat
  hour : Nat
  minute : Nat
  second : Nat
  tzOffsetMinutes : Option Int
deriving DecidableEq, Repr

def digitVal (c : Char) : Option Nat :=
  if c.isDigit then some (c.toNat - 48) else none

def twoDigits (a b : Char) : Option Nat := do
  let x ← digitVal a
  let y ← digitVal b
  pure (10 * x + y)

def fourDigits (a b c d : Char) : Option Nat := do
  let x ← twoDigits a b
  let y ← twoDigits c d
  pure (100 * x + y)

/-- Parse the timezone suffix of an ISO-8601 timestamp: empty (naive),
`Z` (UTC) or `±HH:MM`. -/
def parseTzSuffix : List Char → Option (Option Int)
  | [] => some none
  | ['Z'] => some (some 0)
  | ['+', h1, h2, ':', m1, m2] => do
      let h ← twoDigits h1 h2
      let m ← twoDigits m1 m2
      if h ≤ 23 && m ≤ 59 then pure (some ((h * 60 + m : Nat) : Int)) else none
  | ['-', h1, h2, ':', m1, m2] => do
      let h ← twoDigits h1 h2
      let m ← twoDigits m1 m2
      if h ≤ 23 && m ≤ 59 then pure (some (-((h * 60 + m : Nat) : Int))) else none
  | _ => none

/-- Parse an ISO-8601 timestamp `YYYY-MM-DDTHH:MM:SS` with optional
timezone suffix, the datetime shape this program receives; models the
`datetime` validation pydantic v1 performs for the `start` field. -/
def parseDatetime (s : String) : Option Datetime :=
  match s.toList with
  | y1 :: y2 :: y3 :: y4 :: '-' :: mo1 :: mo2 :: '-' :: d1 :: d2 :: 'T' ::
      h1 :: h2 :: ':' :: mi1 :: mi2 :: ':' :: s1 :: s2 :: rest => do
      let y ← fourDigits y1 y2 y3 y4
      let mo ← twoDigits mo1 mo2
      let d ← twoDigits d1 d2
      let h ← twoDigits h1 h2
      let mi ← twoDigits mi1 mi2
      let sec ← twoDigits s1 s2
      let tz ← parseTzSuffix rest
      if 1 ≤ mo && mo ≤ 12 && 1 ≤ d && d ≤ 31 && h ≤ 23 && mi ≤ 59 && sec ≤ 59 then
        pure { year := y, month := mo, day := d, hour := h, minute := mi,
               second := sec, tzOffsetMinutes := tz }
      else none
  | _ => none

def pad2 (n : Nat) : String :=
  if n < 10 then "0" ++ toString n else toString n

def pad4 (n : Nat) : String :=
  if n < 10 then "000" ++ toString n
  else if n < 100 then "00" ++ toString n
  else if n < 1000 then "0" ++ toString n
  else toString n

/-- Python `datetime.isoformat()`: `YYYY-MM-DDTHH:MM:SS` plus `±HH:MM`
for aware instants (UTC renders as `+00:00`), nothing for naive ones. -/
def Datetime.isoformat (dt : Datetime) : String :=
  pad4 dt.year ++ "-" ++ pad2 dt.month ++ "-" ++ pad2 dt.day ++ "T" ++
  pad2 dt.hour ++ ":" ++ pad2 dt.minute ++ ":" ++ pad2 dt.second ++
  (match dt.tzOffsetMinutes with
   | none => ""
   | some off =>
       (if off < 0 then "-" else "+") ++
       pad2 (off.natAbs / 60) ++ ":" ++ pad2 (off.natAbs % 60))

/-- Accumulate a digit string left-to-right into a natural number;
fails on a non-digit character. -/
def digitsToNatAux (acc : Nat) : List Char → Option Nat
  | [] => some acc
  | c :: cs => do
      let d ← digitVal c
      digitsToNatAux (10 * acc + d) cs

/-- Parse an unsigned decimal string (`"10"`, `"10.5"`, `".5"`, `"5."`)
into an exact rational; models Python `float(...)` on the plain decimal
strings this program can receive. -/
def parseUnsignedDecimal (cs : List Char) : Option ℚ :=
  let intPart := cs.takeWhile (fun c => c.isDigit)
  let rest := cs.dropWhile (fun c => c.isDigit)
  match rest with
  | [] =>
      if intPart.isEmpty then none
      else (digitsToNatAux 0 intPart).map (fun n => (n : ℚ))
  | '.' :: frac =>
      if frac.all (fun c => c.isDigit) && !(intPart.isEmpty && frac.isEmpty) then do
        let ip ← digitsToNatAux 0 intPart
        let fp ← digitsToNatAux 0 frac
        pure ((ip : ℚ) + (fp : ℚ) / ((10 : ℚ) ^ frac.length))
      else none
  | _ => none

def parseDecimalString (s : String) : Option ℚ :=
  match s.toList with
  | '-' :: rest => (parseUnsignedDecimal rest).map (fun q => -q)
  | '+' :: rest => parseUnsignedDecimal rest
  | cs => parseUnsignedDecimal cs

/-- pydantic v1 `float` field validation: numbers pass through, bools
coerce (Python bool is an int), decimal strings coerce, everything else
is rejected. -/
def validateFloat : Json → Option ℚ
  | Json.num q => some q
  | Json.bool b => some (if b then 1 else 0)
  | Json.str s => parseDecimalString s
  | _ => none

/-- pydantic v1 `int` field validation on the shapes this program can
receive: integral numbers, bools and integral decimal strings pass,
everything else is rejected. -/
def validateInt : Json → Option Int
  | Json.num q => if q.den = 1 then some q.num else none
  | Json.bool b => some (if b then 1 else 0)
  | Json.str s => do
      let q ← parseDecimalString s
      if q.den = 1 then some q.num else none
  | _ => none

/-- pydantic v1 `str` field validation on the shapes this program can
receive: strings pass, everything else is rejected. -/
def validateStr : Json → Option String
  | Json.str s => some s
  | _ => none

/-- pydantic v1 `datetime` field validation on the shapes this program
can receive: an ISO-8601 string. -/
def validateDatetime : Json → Option Datetime
  | Json.str s => parseDatetime s
  | _ => none

/-- `class HourlyPrice(BaseModel): start: datetime; value: float`. -/
structure HourlyPrice where
  start : Datetime
  value : ℚ
deriving DecidableEq, Repr

/-- `class AreaValues(BaseModel): values: list[HourlyPrice]`. -/
structure AreaValues where
  values : List HourlyPrice
deriving DecidableEq, Repr

/-- `class AreaPrices(BaseModel): areas: dict[str, AreaValues]`; the
dict is an ordered association list (Python dicts preserve insertion
order, so iteration order matches the provider response order). -/
structure AreaPrices where
  areas : List (String × AreaValues)
deriving DecidableEq, Repr

/-- `class NordpoolConfig(BaseModel): areas: list[str]; currency: str`. -/
structure NordpoolConfig where
  areas : List String
  currency : String
deriving DecidableEq, Repr

/-- `class InfluxDBConfig(BaseModel): host: str; port = 8086;
database = "energy"; retention_policy: Optional[str]`. -/
structure InfluxDBConfig where
  host : String
  port : Int
  database : String
  retention_policy : Option String
deriving DecidableEq, Repr

/-- `class CheckerConfig(BaseModel): influxdb: InfluxDBConfig;
nordpool: NordpoolConfig`. -/
structure CheckerConfig where
  influxdb : InfluxDBConfig
  nordpool : NordpoolConfig
deriving DecidableEq, Repr

/-- `HourlyPrice.parse_obj`: pydantic validation of one hourly entry.
`start` must be a parseable timestamp and `value` a numeric value;
unknown extra fields are ignored (pydantic v1 default). -/
def HourlyPrice.parse_obj : Json → Except String HourlyPrice
  | Json.obj fields =>
      match Json.lookup fields ("start") with
      | none => Except.error ("start: field required")
      | some sj =>
        match validateDatetime sj with
        | none => Except.error ("start: invalid datetime format")
        | some st =>
          match Json.lookup fields ("value") with
          | none => Except.error ("value: field required")
          | some vj =>
            match validateFloat vj with
            | none => Except.error ("value: value is not a valid float")
            | some v => Except.ok { start := st, value := v }
  | _ => Except.error ("value is not a valid dict")

/-- Validate each element of `values` in order; the whole list fails as
soon as one entry fails (pydantic validates eagerly and raises one
`ValidationError` for the model). -/
def parseHourlyList : List Json → Except String (List HourlyPrice)
  | [] => Except.ok []
  | j :: js => do
      let x ← HourlyPrice.parse_obj j
      let xs ← parseHourlyList js
      pure (x :: xs)

/-- `AreaValues.parse_obj`: `values` must be a list of valid hourly
entries; unknown extra fields are ignored. -/
def AreaValues.parse_obj : Json → Except String AreaValues
  | Json.obj fields =>
      match Json.lookup fields ("values") with
      | none => Except.error ("values: field required")
      | some vj =>
        match vj with
        | Json.arr js => do
            let vs ← parseHourlyList js
            pure { values := vs }
        | _ => Except.error ("values: value is not a valid list")
  | _ => Except.error ("value is not a valid dict")

/-- Validate the entries of the `areas` dict in response order. -/
def parseAreaList : List (String × Json) → Except String (List (String × AreaValues))
  | [] => Except.ok []
  | (k, v) :: rest => do
      let av ← AreaValues.parse_obj v
      let tail ← parseAreaList rest
      pure ((k, av) :: tail)

/-- `AreaPrices.parse_obj(data)`: the top level must be a mapping that
contains the key `areas`, whose value is a mapping from area codes to
valid `AreaValues`; unknown extra top-level fields are ignored. -/
def AreaPrices.parse_obj : Json → Except String AreaPrices
  | Json.obj fields =>
      match Json.lookup fields ("areas") with
      | none => Except.error ("areas: field required")
      | some aj =>
        match aj with
        | Json.obj areaFields => do
            let l ← parseAreaList areaFields
            pure { areas := l }
        | _ => Except.error ("areas: value is not a valid dict")
  | _ => Except.error ("value is not a valid dict")

/-- Validate a `list[str]` field element-wise. -/
def parseStrList : List Json → Except String (List String)
  | [] => Except.ok []
  | j :: js =>
      match validateStr j with
      | none => Except.error ("str type expected")
      | some s => do
          let rest ← parseStrList js
          pure (s :: rest)

/-- `NordpoolConfig` construction from the `nordpool` config sub-tree:
`areas` must be a list of strings (any length, no non-emptiness check)
and `currency` a string. -/
def NordpoolConfig.parse_obj : Json → Except String NordpoolConfig
  | Json.obj fields =>
      match Json.lookup fields ("areas") with
      | none => Except.error ("areas: field required")
      | some aj =>
        match aj with
        | Json.arr js => do
            let l ← parseStrList js
            match Json.lookup fields ("currency") with
            | none => Except.error ("currency: field required")
            | some cj =>
              match validateStr cj with
              | none => Except.error ("currency: str type expected")
              | some cur => pure { areas := l, currency := cur }
        | _ => Except.error ("areas: value is not a valid list")
  | _ => Except.error ("value is not a valid dict")

/-- `InfluxDBConfig` construction from the `influxdb` config sub-tree:
`host` is required; `port` defaults to 8086 and must be an integer (no
TCP port-range check); `database` defaults to `"energy"` and may be any
string (no non-emptiness check); `retention_policy` is optional. -/
def InfluxDBConfig.parse_obj : Json → Except String InfluxDBConfig
  | Json.obj fields =>
      match Json.lookup fields ("host") with
      | none => Except.error ("host: field required")
      | some hj =>
        match validateStr hj with
        | none => Except.error ("host: str type expected")
        | some h =>
          match (match Json.lookup fields ("port") with
                 | none => some (8086 : Int)
                 | some pj => validateInt pj) with
          | none => Except.error ("port: value is not a valid integer")
          | some p =>
            match (match Json.lookup fields ("database") with
                   | none => some ("energy")
                   | some dj => validateStr dj) with
            | none => Except.error ("database: str type expected")
            | some db =>
              match Json.lookup fields ("retention_policy") with
              | none =>
                  Except.ok { host := h, port := p, database := db, retention_policy := none }
              | some Json.null =>
                  Except.ok { host := h, port := p, database := db, retention_policy := none }
              | some rj =>
                match validateStr rj with
                | none => Except.error ("retention_policy: str type expected")
                | some r =>
                    Except.ok { host := h, port := p, database := db, retention_policy := some r }
  | _ => Except.error ("value is not a valid dict")

/-- `CheckerConfig(**config)`: validate both config sub-trees. -/
def CheckerConfig.parse_obj : Json → Except String CheckerConfig
  | Json.obj fields =>
      match Json.lookup fields ("influxdb") with
      | none => Except.error ("influxdb: field required")
      | some ij => do
          let ic ← InfluxDBConfig.parse_obj ij
          match Json.lookup fields ("nordpool") with
          | none => Except.error ("nordpool: field required")
          | some nj => do
              let nc ← NordpoolConfig.parse_obj nj
              pure { influxdb := ic, nordpool := nc }
  | _ => Except.error ("value is not a valid dict")

/-- `def _convert_price_to_cents_with_vat24(price: float) -> float:
return (1.24 * price * 100) / 1000`. -/
def _convert_price_to_cents_with_vat24 (price : ℚ) : ℚ :=
  (1.24 * price * 100) / 1000

/-- One InfluxDB point as built by `collect_data`: measurement name,
tag map, ISO-8601 time string, field map. -/
structure WriteRecord where
  measurement : String
  tags : List (String × String)
  time : String
  fields : List (String × ℚ)
deriving DecidableEq, Repr

/-- The `json_body` list comprehension of `collect_data`: for each
`(area, price_data)` of `area_prices.areas.items()` in order, for each
`data` of `price_data.values` in order, one point with measurement
`"nordpool_price"`, tag `area`, time `data.start.isoformat()` and field
`price = _convert_price_to_cents_with_vat24(data.value)`. -/
def json_body : List (String × AreaValues) → List WriteRecord
  | [] => []
  | (area, price_data) :: rest =>
      price_data.values.map (fun data =>
        { measurement := ("nordpool_price"),
          tags := [(("area"), area)],
          time := data.start.isoformat,
          fields := [(("price"), _convert_price_to_cents_with_vat24 data.value)] })
      ++ json_body rest

/-- Outcome of `prices.fetch(...)`: the provider data, or a raised
network/provider exception. -/
inductive FetchOutcome where
  | ok : Json → FetchOutcome
  | err : String → FetchOutcome

/-- Outcome of `influx.write_points(...)`: success, or a raised write
exception. -/
inductive WriteOutcome where
  | ok : WriteOutcome
  | err : String → WriteOutcome
deriving DecidableEq, Repr

/-- Environment of external effects for one `collect_data` run. -/
structure Env where
  fetch : FetchOutcome
  writeOutcome : WriteOutcome

/-- Observable trace of one `collect_data` run: whether the aiohttp
client session is still open when the call terminates, the batches
passed to `influx.write_points` (in call order), and the batches logged
on the dry-run path. -/
structure Trace where
  sessionOpen : Bool
  writes : List (List WriteRecord)
  dryRunLogged : List (List WriteRecord)
deriving DecidableEq, Repr

/-- `collect_data(nordpool_config, influx, influx_config, dry_run)`:
opens a client session, fetches, parses with `AreaPrices.parse_obj`,
builds `json_body`, then either logs it (dry run) or passes it to
`influx.write_points`, and finally runs `await client.close()`.  There
is no try/finally, so the close only runs when every prior statement
succeeded; an exception raised by fetch, parse or write propagates with
the session still open.  Returns the trace plus the normal result or
the propagated exception. -/
def collect_data (env : Env) (dry_run : Bool) : Trace × Except String Unit :=
  match env.fetch with
  | FetchOutcome.err m =>
      ({ sessionOpen := true, writes := [], dryRunLogged := [] }, Except.error m)
  | FetchOutcome.ok data =>
    match AreaPrices.parse_obj data with
    | Except.error m =>
        ({ sessionOpen := true, writes := [], dryRunLogged := [] }, Except.error m)
    | Except.ok area_prices =>
      let body := json_body area_prices.areas
      if dry_run then
        ({ sessionOpen := false, writes := [], dryRunLogged := [body] }, Except.ok ())
      else
        match env.writeOutcome with
        | WriteOutcome.err m =>
            ({ sessionOpen := true, writes := [body], dryRunLogged := [] }, Except.error m)
        | WriteOutcome.ok =>
            ({ sessionOpen := false, writes := [body], dryRunLogged := [] }, Except.ok ())

/-- C1: for every configuration and provider response, the dry-run path
performs no database write, and the record batch it logs is exactly the
batch that the non-dry-run path passes to the sink's write call on the
same input. -/
theorem C1_dry_run_matches_write (env : Env) :
    (collect_data env true).1.writes = [] ∧
    (collect_data env true).1.dryRunLogged = (collect_data env false).1.writes := by
  obtain ⟨f, w⟩ := env
  cases f with
  | err m => exact ⟨rfl, rfl⟩
  | ok d =>
      cases hp : AreaPrices.parse_obj d with
      | error m => simp [collect_data, hp]
      | ok ap => cases w <;> simp [collect_data, hp]

/-- C2: the price transform is the fixed linear formula
`(1.24 * x * 100) / 1000 = 1.24 * x / 10` for every rational input,
including zero and negative inputs, with no error case; in particular
it maps `-5` to `-0.62`. -/
theorem C2_transform_linear :
    (∀ x : ℚ, _convert_price_to_cents_with_vat24 x = 1.24 * x / 10) ∧
    _convert_price_to_cents_with_vat24 (-5) = -0.62 ∧
    _convert_price_to_cents_with_vat24 0 = 0 := by
  refine ⟨fun x => ?_, ?_, ?_⟩
  · unfold _convert_price_to_cents_with_vat24
    ring
  · norm_num [_convert_price_to_cents_with_vat24]
  · norm_num [_convert_price_to_cents_with_vat24]

/-- C3: the record builder emits exactly one record per hourly price,
iterating areas and hours in their original order, each record carrying
measurement `"nordpool_price"`, the `area` tag, the ISO-8601 rendering
of the start instant, and the transformed price; the output length is
the total number of hourly entries. -/
theorem C3_record_builder_flattens (ap : AreaPrices) :
    (json_body ap.areas).length = (ap.areas.map (fun p => p.2.values.length)).sum ∧
    json_body ap.areas = (ap.areas.map (fun p => p.2.values.map (fun d =>
      ({ measurement := ("nordpool_price"), tags := [(("area"), p.1)],
         time := d.start.isoformat,
         fields := [(("price"), _convert_price_to_cents_with_vat24 d.value)] } : WriteRecord)))).flatten := by
  obtain ⟨l⟩ := ap
  induction l with
  | nil => exact ⟨rfl, rfl⟩
  | cons h t ih =>
      obtain ⟨hl, he⟩ := ih
      obtain ⟨area, price_data⟩ := h
      refine ⟨?_, ?_⟩
      · simpa [json_body] using hl
      · simpa [json_body] using he

/-- C8 counterexample: when the fetch raises, `collect_data` terminates
by propagating the exception with the client session still open — the
claim that the session is released on all exit paths is false. -/
theorem C8_counterexample_session_left_open :
    (collect_data { fetch := FetchOutcome.err ("timeout"), writeOutcome := WriteOutcome.ok }
      false).1.sessionOpen = true := rfl

/-- C8 amended: the client session is closed exactly on the successful
exit path of `collect_data` (including dry-run success); on every
failure path — fetch error, parse error, or write error — the exception
propagates with the session still open. -/
theorem C8_session_closed_iff_success (env : Env) (dr : Bool) :
    (collect_data env dr).1.sessionOpen = false ↔
      (collect_data env dr).2 = Except.ok () := by
  obtain ⟨f, w⟩ := env
  cases f with
  | err m => simp [collect_data]
  | ok d =>
      cases hp : AreaPrices.parse_obj d with
      | error m => simp [collect_data, hp]
      | ok ap => cases dr <;> cases w <;> simp [collect_data, hp]

/-- C9: when `dry_run` is false and the sink write raises, the error is
not caught, retried or suppressed: `collect_data` propagates exactly
that error, and the sink was invoked exactly once, with the full batch. -/
theorem C9_write_error_propagates (env : Env) (jd : Json) (ap : AreaPrices) (m : String)
    (hf : env.fetch = FetchOutcome.ok jd)
    (hp : AreaPrices.parse_obj jd = Except.ok ap)
    (hw : env.writeOutcome = WriteOutcome.err m) :
    (collect_data env false).2 = Except.error m ∧
    (collect_data env false).1.writes = [json_body ap.areas] := by
  obtain ⟨f, w⟩ := env
  simp only at hf hw
  subst hf
  subst hw
  simp [collect_data, hp]

def c9_data : Json := Json.obj [(("areas"), Json.obj [])]

def c9_parsed : AreaPrices := { areas := [] }

/-- C9 witness: a concrete run in which the write fails. -/
theorem C9_write_error_propagates_witness :
    (collect_data { fetch := FetchOutcome.ok c9_data, writeOutcome := WriteOutcome.err ("write failed") }
      false).2 = Except.error ("write failed") ∧
    (collect_data { fetch := FetchOutcome.ok c9_data, writeOutcome := WriteOutcome.err ("write failed") }
      false).1.writes = [json_body c9_parsed.areas] :=
  C9_write_error_propagates _ c9_data c9_parsed ("write failed") rfl rfl rfl


/-- If every area's value list is empty, the record builder emits no
records. -/
theorem json_body_eq_nil_of_empty_values :
    ∀ l : List (String × AreaValues), (∀ p ∈ l, (p.2).values = []) → json_body l = []
  | [], _ => rfl
  | (area, price_data) :: rest, h => by
      have h1 : price_data.values = [] := h (area, price_data) (List.mem_cons_self _ _)
      have h2 : json_body rest = [] :=
        json_body_eq_nil_of_empty_values rest (fun p hp => h p (List.mem_cons_of_mem _ hp))
      simp [json_body, h1, h2]

/-- C10: when the parsed price set has an empty area map, or every
area's values list is empty, the pipeline builds an empty record batch
and, in non-dry-run mode with a healthy sink, completes without error
after invoking the sink write exactly once with the empty batch. -/
theorem C10_empty_price_set_ok (env : Env) (jd : Json) (ap : AreaPrices)
    (hf : env.fetch = FetchOutcome.ok jd)
    (hp : AreaPrices.parse_obj jd = Except.ok ap)
    (hempty : ∀ p ∈ ap.areas, (p.2).values = [])
    (hw : env.writeOutcome = WriteOutcome.ok) :
    json_body ap.areas = [] ∧
    (collect_data env false).2 = Except.ok () ∧
    (collect_data env false).1.writes = [[]] := by
  have hbody : json_body ap.areas = [] := json_body_eq_nil_of_empty_values ap.areas hempty
  obtain ⟨f, w⟩ := env
  simp only at hf hw
  subst hf
  subst hw
  refine ⟨hbody, ?_, ?_⟩ <;> simp [collect_data, hp, hbody]

def c10_data : Json :=
  Json.obj [(("areas"), Json.obj [(("SE1"), Json.obj [(("values"), Json.arr [])])])]

def c10_parsed : AreaPrices := { areas := [(("SE1"), { values := [] })] }

/-- C10 witness: a concrete response in which the only area has an
empty values list. -/
theorem C10_empty_price_set_ok_witness :
    json_body c10_parsed.areas = [] ∧
    (collect_data { fetch := FetchOutcome.ok c10_data, writeOutcome := WriteOutcome.ok }
      false).2 = Except.ok () ∧
    (collect_data { fetch := FetchOutcome.ok c10_data, writeOutcome := WriteOutcome.ok }
      false).1.writes = [[]] :=
  C10_empty_price_set_ok _ c10_data c10_parsed rfl rfl (by decide) rfl


/-- The provider response exactly as the claim C4 (and the spec's
response-shape description) writes it: area codes at the top level. -/
def c4_unwrapped : Json :=
  Json.obj [(("SE1"), Json.obj [(("values"),
    Json.arr [Json.obj [(("start"), Json.str ("2024-01-01T00:00:00Z")),
                        (("value"), Json.num 10)]])])]

/-- The same data under the `areas` wrapper key that `AreaPrices`
actually requires. -/
def c4_wrapped : Json := Json.obj [(("areas"), c4_unwrapped)]

def c4_start : Datetime :=
  { year := 2024, month := 1, day := 1, hour := 0, minute := 0, second := 0,
    tzOffsetMinutes := some 0 }

def c4_parsed : AreaPrices :=
  { areas := [(("SE1"), { values := [{ start := c4_start, value := 10 }] })] }

def c4_record : WriteRecord :=
  { measurement := ("nordpool_price"), tags := [(("area"), ("SE1"))],
    time := ("2024-01-01T00:00:00+00:00"), fields := [(("price"), 1.24)] }

/-- C4 counterexample: the area-keyed top level the claim prescribes is
rejected by `AreaPrices.parse_obj` — the model requires an `areas`
wrapper key — so parsing does not succeed on the claimed input. -/
theorem C4_counterexample_unwrapped_rejected :
    AreaPrices.parse_obj c4_unwrapped = Except.error ("areas: field required") := rfl

/-- C4 amended: for the provider response
`{"areas": {"SE1": {"values": [{"start": "2024-01-01T00:00:00Z",
"value": 10.0}]}}}` — the same data under the `areas` wrapper key that
the code's `AreaPrices` model requires — parsing succeeds and the
pipeline produces exactly one record with measurement
`"nordpool_price"`, tag `area = "SE1"`, time
`"2024-01-01T00:00:00+00:00"` and field `price = 1.24`. -/
theorem C4_wrapped_single_record :
    AreaPrices.parse_obj c4_wrapped = Except.ok c4_parsed ∧
    json_body c4_parsed.areas = [c4_record] ∧
    (collect_data { fetch := FetchOutcome.ok c4_wrapped, writeOutcome := WriteOutcome.ok }
      false).1.writes = [[c4_record]] := by
  have hb : json_body c4_parsed.areas = [c4_record] := by
    have h : json_body c4_parsed.areas =
        [{ measurement := ("nordpool_price"), tags := [(("area"), ("SE1"))],
           time := ("2024-01-01T00:00:00+00:00"),
           fields := [(("price"), _convert_price_to_cents_with_vat24 10)] }] := rfl
    rw [h]
    norm_num [_convert_price_to_cents_with_vat24, c4_record]
  refine ⟨rfl, hb, ?_⟩
  have h2 : (collect_data { fetch := FetchOutcome.ok c4_wrapped, writeOutcome := WriteOutcome.ok }
      false).1.writes = [json_body c4_parsed.areas] := rfl
  rw [h2, hb]

/-- The configuration tree of claim C5: a valid influxdb sub-tree and a
nordpool sub-tree whose areas list is empty. -/
def c5_tree : Json :=
  Json.obj [(("influxdb"), Json.obj [(("host"), Json.str ("localhost"))]),
            (("nordpool"), Json.obj [(("areas"), Json.arr []),
                                     (("currency"), Json.str ("EUR"))])]

/-- C5 counterexample: constructing the configuration from a tree whose
nordpool areas list is empty succeeds — `areas: list[str]` imposes no
minimum length — so the claimed validation failure does not occur. -/
theorem C5_counterexample_empty_areas_accepted :
    CheckerConfig.parse_obj c5_tree = Except.ok
      { influxdb := { host := ("localhost"), port := 8086, database := ("energy"),
                      retention_policy := none },
        nordpool := { areas := [], currency := ("EUR") } } := rfl

/-- C5 amended: configuration construction accepts an empty areas list
(for any host and currency): no at-least-one-area invariant is
enforced, so the run proceeds past config validation toward the
network call. -/
theorem C5_empty_areas_config_succeeds (hostName cur : String) :
    CheckerConfig.parse_obj
      (Json.obj [(("influxdb"), Json.obj [(("host"), Json.str hostName)]),
                 (("nordpool"), Json.obj [(("areas"), Json.arr []),
                                          (("currency"), Json.str cur)])]) =
    Except.ok
      { influxdb := { host := hostName, port := 8086, database := ("energy"),
                      retention_policy := none },
        nordpool := { areas := [], currency := cur } } := rfl


/-- The influxdb sub-tree of claim C6: port 70000 is outside the TCP
port range and the database name is empty. -/
def c6_tree : Json :=
  Json.obj [(("host"), Json.str ("localhost")), (("port"), Json.num 70000),
            (("database"), Json.str (""))]

/-- C6 counterexample: an influxdb sub-tree with port 70000 (not a
valid TCP port) and an empty database name is accepted by configuration
construction, so neither claimed invariant is enforced. -/
theorem C6_counterexample_invalid_target_accepted :
    InfluxDBConfig.parse_obj c6_tree = Except.ok
      { host := ("localhost"), port := 70000, database := (""),
        retention_policy := none } := rfl

/-- C6 amended: configuration construction requires `host` to be
present (failing with a validation error naming the field otherwise)
and `port` to be an integer, but performs no TCP port-range check and
accepts any database string including the empty one: every integral
port and every database name construct successfully. -/
theorem C6_no_port_range_or_database_check (p : Int) (db hostName : String) :
    InfluxDBConfig.parse_obj
      (Json.obj [(("host"), Json.str hostName), (("port"), Json.num (p : ℚ)),
                 (("database"), Json.str db)]) =
    Except.ok { host := hostName, port := p, database := db, retention_policy := none } ∧
    InfluxDBConfig.parse_obj (Json.obj []) = Except.error ("host: field required") := by
  constructor
  · simp [InfluxDBConfig.parse_obj, Json.lookup, validateStr, validateInt]
  · rfl


/-- A wrapped response whose top level carries only the key `areas` —
by the spec's description of the response shape it is not area-keyed,
yet it parses. -/
def c7_wrapped_empty_values : Json :=
  Json.obj [(("areas"), Json.obj [(("SE1"), Json.obj [(("values"), Json.arr [])])])]

/-- A wrapped response with an unparseable `start` timestamp. -/
def c7_bad_start : Json :=
  Json.obj [(("areas"), Json.obj [(("SE1"), Json.obj [(("values"),
    Json.arr [Json.obj [(("start"), Json.str ("not-a-date")),
                        (("value"), Json.num 10)]])])])]

/-- A wrapped response with a non-numeric `value`. -/
def c7_bad_value : Json :=
  Json.obj [(("areas"), Json.obj [(("SE1"), Json.obj [(("values"),
    Json.arr [Json.obj [(("start"), Json.str ("2024-01-01T00:00:00Z")),
                        (("value"), Json.str ("abc"))]])])])]

/-- A wrapped response carrying unknown extra fields at every level:
top level (`currency`), area entry (`extra`) and hourly entry (`stop`). -/
def c7_extra_fields : Json :=
  Json.obj [(("areas"), Json.obj [(("SE1"), Json.obj [(("values"),
      Json.arr [Json.obj [(("start"), Json.str ("2024-01-01T00:00:00Z")),
                          (("value"), Json.num 10),
                          (("stop"), Json.str ("2024-01-01T00:15:00Z"))]]),
      (("extra"), Json.bool true)])]),
    (("currency"), Json.str ("EUR"))]

/-- C7 counterexample: a response whose top-level keys are `["areas"]`
— not area codes, hence not area-keyed in the claim's sense — parses
successfully, so the claim that every non-area-keyed top level is
rejected is false. -/
theorem C7_counterexample_wrapper_accepted :
    AreaPrices.parse_obj c7_wrapped_empty_values =
      Except.ok { areas := [(("SE1"), { values := [] })] } := rfl


/-- A wrapped response whose only hourly entry has no `start` field. -/
def c7_missing_start : Json :=
  Json.obj [(("areas"), Json.obj [(("SE1"), Json.obj [(("values"),
    Json.arr [Json.obj [(("value"), Json.num 10)]])])])]

/-- Transcribed from the amended claim: an hourly entry is well formed
when it is a mapping carrying a parseable `start` timestamp and a
numeric `value` (extra keys irrelevant). -/
def hourlyWellFormed : Json → Bool
  | Json.obj fields =>
      (match Json.lookup fields ("start") with
       | some sj => (validateDatetime sj).isSome
       | none => false) &&
      (match Json.lookup fields ("value") with
       | some vj => (validateFloat vj).isSome
       | none => false)
  | _ => false

/-- Transcribed from the amended claim: an area entry is well formed
when it is a mapping whose `values` key holds a list of well-formed
hourly entries (extra keys irrelevant). -/
def areaWellFormed : Json → Bool
  | Json.obj fields =>
      (match Json.lookup fields ("values") with
       | some (Json.arr js) => js.all hourlyWellFormed
       | _ => false)
  | _ => false

/-- Transcribed from the amended claim: a provider response is accepted
exactly when it is a mapping whose `areas` key holds a mapping of
well-formed area entries (extra keys irrelevant). -/
def areaPricesWellFormed : Json → Bool
  | Json.obj fields =>
      (match Json.lookup fields ("areas") with
       | some (Json.obj areaFields) => areaFields.all (fun p => areaWellFormed p.2)
       | _ => false)
  | _ => false

/-- Appending a binding under a different key does not change a dict
lookup. -/
theorem lookup_append_ne (l : List (String × Json)) (k : String) (v : Json)
    (key : String) (hk : k ≠ key) :
    Json.lookup (l ++ [(k, v)]) key = Json.lookup l key := by
  induction l with
  | nil => simp [Json.lookup, hk]
  | cons p rest ih =>
      obtain ⟨k0, v0⟩ := p
      by_cases h0 : k0 = key
      · simp [Json.lookup, h0]
      · simp [Json.lookup, h0, ih]

/-- `HourlyPrice.parse_obj` succeeds exactly on well-formed hourly
entries. -/
theorem hourly_parse_obj_isOk (j : Json) :
    (HourlyPrice.parse_obj j).isOk = hourlyWellFormed j := by
  cases j with
  | obj fields =>
      simp only [HourlyPrice.parse_obj, hourlyWellFormed]
      cases hs : Json.lookup fields ("start") with
      | none => rfl
      | some sj =>
          cases hd : validateDatetime sj with
          | none => simp [Except.isOk, Except.toBool, hd]
          | some st =>
              cases hv : Json.lookup fields ("value") with
              | none => simp [Except.isOk, Except.toBool, hd, hv]
              | some vj =>
                  cases hf : validateFloat vj with
                  | none => simp [Except.isOk, Except.toBool, hd, hv, hf]
                  | some x => simp [Except.isOk, Except.toBool, hd, hv, hf]
  | str s => rfl
  | num q => rfl
  | bool b => rfl
  | null => rfl
  | arr js => rfl

/-- `parseHourlyList` succeeds exactly when every hourly entry is well
formed. -/
theorem parseHourlyList_isOk (js : List Json) :
    (parseHourlyList js).isOk = js.all hourlyWellFormed := by
  induction js with
  | nil => rfl
  | cons j rest ih =>
      rw [List.all_cons, ← hourly_parse_obj_isOk j, ← ih]
      simp only [parseHourlyList]
      cases hp : HourlyPrice.parse_obj j with
      | error m => simp [Except.isOk, Except.toBool, Except.instMonad, Bind.bind, Except.bind, Functor.map, Except.map]
      | ok x =>
          cases hr : parseHourlyList rest with
          | error m => simp [Except.isOk, Except.toBool, Except.instMonad, Bind.bind, Except.bind, Functor.map, Except.map, hr]
          | ok xs => simp [Except.isOk, Except.toBool, Except.instMonad, Bind.bind, Except.bind, Functor.map, Except.map, pure, Except.pure, hr]

/-- `AreaValues.parse_obj` succeeds exactly on well-formed area
entries. -/
theorem areaValues_parse_obj_isOk (j : Json) :
    (AreaValues.parse_obj j).isOk = areaWellFormed j := by
  cases j with
  | obj fields =>
      simp only [AreaValues.parse_obj, areaWellFormed]
      cases hv : Json.lookup fields ("values") with
      | none => rfl
      | some vj =>
          cases vj with
          | arr js =>
              cases hr : parseHourlyList js with
              | error m =>
                  simp [Except.isOk, Except.toBool, Except.instMonad, Bind.bind,
                        Except.bind, Functor.map, Except.map, ← parseHourlyList_isOk, hr]
              | ok xs =>
                  simp [Except.isOk, Except.toBool, Except.instMonad, Bind.bind,
                        Except.bind, Functor.map, Except.map, pure, Except.pure,
                        ← parseHourlyList_isOk, hr]
          | str s => rfl
          | num q => rfl
          | bool b => rfl
          | null => rfl
          | obj fs => rfl
  | str s => rfl
  | num q => rfl
  | bool b => rfl
  | null => rfl
  | arr js => rfl

/-- `parseAreaList` succeeds exactly when every area entry is well
formed. -/
theorem parseAreaList_isOk (l : List (String × Json)) :
    (parseAreaList l).isOk = l.all (fun p => areaWellFormed p.2) := by
  induction l with
  | nil => rfl
  | cons p rest ih =>
      obtain ⟨k, v⟩ := p
      rw [List.all_cons, ← areaValues_parse_obj_isOk, ← ih]
      simp only [parseAreaList]
      cases hp : AreaValues.parse_obj v with
      | error m => simp [Except.isOk, Except.toBool, Except.instMonad, Bind.bind, Except.bind, Functor.map, Except.map]
      | ok av =>
          cases hr : parseAreaList rest with
          | error m => simp [Except.isOk, Except.toBool, Except.instMonad, Bind.bind, Except.bind, Functor.map, Except.map, hr]
          | ok tl => simp [Except.isOk, Except.toBool, Except.instMonad, Bind.bind, Except.bind, Functor.map, Except.map, pure, Except.pure, hr]

/-- `AreaPrices.parse_obj` succeeds exactly on responses accepted by the
amended claim's well-formedness condition. -/
theorem areaPrices_parse_obj_isOk (j : Json) :
    (AreaPrices.parse_obj j).isOk = areaPricesWellFormed j := by
  cases j with
  | obj fields =>
      simp only [AreaPrices.parse_obj, areaPricesWellFormed]
      cases ha : Json.lookup fields ("areas") with
      | none => rfl
      | some aj =>
          cases aj with
          | obj areaFields =>
              cases hr : parseAreaList areaFields with
              | error m =>
                  simp [Except.isOk, Except.toBool, Except.instMonad, Bind.bind,
                        Except.bind, Functor.map, Except.map, ← parseAreaList_isOk, hr]
              | ok l =>
                  simp [Except.isOk, Except.toBool, Except.instMonad, Bind.bind,
                        Except.bind, Functor.map, Except.map, pure, Except.pure,
                        ← parseAreaList_isOk, hr]
          | str s => rfl
          | num q => rfl
          | bool b => rfl
          | null => rfl
          | arr js => rfl
  | str s => rfl
  | num q => rfl
  | bool b => rfl
  | null => rfl
  | arr js => rfl


/-- C7 amended: `AreaPrices.parse_obj` succeeds exactly when the top
level is a mapping holding the key `areas` with a mapping of well-formed
area entries — so parsing fails with a pydantic ValidationError (the
SchemaError class) whenever that wrapper shape is missing or any hourly
entry lacks a parseable timestamp or a numeric value; whenever parsing
fails, zero records are written or logged; and appending an unknown
extra field to an hourly entry, an area entry or the top level never
changes the parse result (concrete failing and extra-field instances
included). -/
theorem C7_parse_validation :
    (∀ j, (AreaPrices.parse_obj j).isOk = areaPricesWellFormed j) ∧
    (∀ env dr jd m, env.fetch = FetchOutcome.ok jd →
       AreaPrices.parse_obj jd = Except.error m →
       (collect_data env dr).1.writes = [] ∧ (collect_data env dr).1.dryRunLogged = []) ∧
    (∀ fields k v, k ≠ ("start") → k ≠ ("value") →
       HourlyPrice.parse_obj (Json.obj (fields ++ [(k, v)])) =
         HourlyPrice.parse_obj (Json.obj fields)) ∧
    (∀ fields k v, k ≠ ("values") →
       AreaValues.parse_obj (Json.obj (fields ++ [(k, v)])) =
         AreaValues.parse_obj (Json.obj fields)) ∧
    (∀ fields k v, k ≠ ("areas") →
       AreaPrices.parse_obj (Json.obj (fields ++ [(k, v)])) =
         AreaPrices.parse_obj (Json.obj fields)) ∧
    AreaPrices.parse_obj c7_bad_start = Except.error ("start: invalid datetime format") ∧
    AreaPrices.parse_obj c7_bad_value = Except.error ("value: value is not a valid float") ∧
    AreaPrices.parse_obj c7_missing_start = Except.error ("start: field required") ∧
    AreaPrices.parse_obj c7_extra_fields = Except.ok c4_parsed := by
  refine ⟨areaPrices_parse_obj_isOk, ?_, ?_, ?_, ?_, rfl, rfl, rfl, rfl⟩
  · intro env dr jd m hf hp
    obtain ⟨f, w⟩ := env
    simp only at hf
    subst hf
    cases dr <;> simp [collect_data, hp]
  · intro fields k v h1 h2
    simp only [HourlyPrice.parse_obj, lookup_append_ne fields k v ("start") h1,
               lookup_append_ne fields k v ("value") h2]
  · intro fields k v h1
    simp only [AreaValues.parse_obj, lookup_append_ne fields k v ("values") h1]
  · intro fields k v h1
    simp only [AreaPrices.parse_obj, lookup_append_ne fields k v ("areas") h1]

/-- C7 witness: the zero-record consequence applied to the
bad-timestamp response, and the extra-field invariance applied at all
three levels to concrete entries. -/
theorem C7_parse_validation_witness :
    (collect_data { fetch := FetchOutcome.ok c7_bad_start, writeOutcome := WriteOutcome.ok }
      false).1.writes = [] ∧
    HourlyPrice.parse_obj (Json.obj ([(("start"), Json.str ("2024-01-01T00:00:00Z")),
        (("value"), Json.num 10)] ++ [(("stop"), Json.null)])) =
      HourlyPrice.parse_obj (Json.obj [(("start"), Json.str ("2024-01-01T00:00:00Z")),
        (("value"), Json.num 10)]) ∧
    AreaValues.parse_obj (Json.obj ([(("values"), Json.arr [])] ++ [(("extra"), Json.bool true)])) =
      AreaValues.parse_obj (Json.obj [(("values"), Json.arr [])]) ∧
    AreaPrices.parse_obj (Json.obj ([(("areas"), Json.obj [])] ++ [(("currency"), Json.str ("EUR"))])) =
      AreaPrices.parse_obj (Json.obj [(("areas"), Json.obj [])]) :=
  ⟨(C7_parse_validation.2.1 _ false c7_bad_start ("start: invalid datetime format") rfl rfl).1,
   C7_parse_validation.2.2.1 _ ("stop") Json.null (by decide) (by decide),
   C7_parse_validation.2.2.2.1 _ ("extra") (Json.bool true) (by decide),
   C7_parse_validation.2.2.2.2.1 _ ("currency") (Json.str ("EUR")) (by decide)⟩

end Nordpool2Influxdb
